import Mathlib

/-!
Verification of the wall-tracking navigation controller
(`src/wall_tracking.cpp`, namespace `WallTracking`).

The controller's numeric type (`float`/`double`) is embedded as `ℚ`.
The `ScanData` class and the `DEG2RAD` macro live in headers that are not
part of the repository snapshot; `ScanData` is embedded as a record of
query functions (the decision code only consumes their results), and the
irrational constant `M_PI` used by `DEG2RAD` is carried as a configuration
field `pi`.
-/

namespace WallTracking

/-- The configuration parameters read in `get_param` (lines 50-68), plus the
two angles `fwc_deg_` / `flw_deg_` that `init_variable` (lines 96-106)
derives once at startup via `atan2` trigonometry (kept abstract here, since
their exact irrational values never matter to the decision logic), and the
field `pi` standing for the constant `M_PI` of the `DEG2RAD` macro defined
in the header `wall_tracking.hpp` (not under `src/`). -/
structure Config where
  max_linear_vel : ℚ
  max_angular_vel : ℚ
  min_angular_vel : ℚ
  distance_from_wall : ℚ
  distance_to_stop : ℚ
  sampling_rate : ℚ
  kp : ℚ
  ki : ℚ
  kd : ℚ
  start_deg_lateral : ℚ
  end_deg_lateral : ℚ
  stop_ray_th : ℚ
  open_place_distance : ℚ
  fwc_deg : ℚ
  flw_deg : ℚ
  pi : ℚ
deriving DecidableEq

/-- Modelled from the spec: the `DEG2RAD` macro of `wall_tracking.hpp`
(not under `src/`) converts degrees to radians, "−45° converted to
radians"; `M_PI` is the configuration field `pi`. -/
def DEG2RAD (cfg : Config) (deg : ℚ) : ℚ :=
  deg * cfg.pi / 180

/-- Modelled from the spec: the interface of the `ScanData` class
(`scan_data_`), whose implementation is not under `src/`.  The decision
engine only consumes the results of these angular-sector queries
(§4.1 of the spec), so they are embedded as unconstrained functions. -/
structure ScanData where
  conflictCheck : ℚ → ℚ → Bool
  thresholdCheck : ℚ → ℚ → Bool
  frontWallCheck : ℚ → ℚ → ℚ
  noiseCheck : ℚ → Bool
  leftWallCheck : ℚ → ℚ → ℚ
  openPlaceCheck : ℚ → ℚ → ℚ → ℚ

/-- A published velocity command: `(linear.x, angular.z)`. -/
abbrev Command := ℚ × ℚ

/-- `WallTracking::pub_cmd_vel` (lines 108-113): clamp the linear velocity
from above by `max_linear_vel_` and the angular velocity into
`[min_angular_vel_, max_angular_vel_]`, then publish. -/
def pub_cmd_vel (cfg : Config) (linear_x angular_z : ℚ) : Command :=
  (min linear_x cfg.max_linear_vel,
   max (min angular_z cfg.max_angular_vel) cfg.min_angular_vel)

/-- `WallTracking::lateral_pid_control` (lines 145-151): returns the updated
integral accumulator `ei_` together with the returned correction. -/
def lateral_pid_control (cfg : Config) (ei input : ℚ) : ℚ × ℚ :=
  let e := input - cfg.distance_from_wall
  let ei' := ei + e * cfg.sampling_rate
  let ed := e / cfg.sampling_rate
  (ei', e * cfg.kp + ei' * cfg.ki + ed * cfg.kd)

/-- The open-place flag update of `WallTracking::scan_callback`
(lines 123-133): in indoor mode the flag is cleared; in outdoor mode the
full-frontal openness score over `[-90°, 90°]` is compared against `0.7`
when the flag is down and against `0.4` when it is up. -/
def scan_callback_open_place (cfg : Config) (sd : ScanData)
    (outdoor open_place : Bool) : Bool :=
  match outdoor with
  | false => false
  | true =>
    let open_place_arrived_check :=
      sd.openPlaceCheck (-90) 90 cfg.open_place_distance
    if !open_place then decide (open_place_arrived_check ≥ 0.7)
    else decide (open_place_arrived_check ≥ 0.4)

/-- A `ScanData` whose full-frontal openness query returns the constant
score `s`; used to feed score sequences through `scan_callback_open_place`. -/
def constScan (s : ℚ) : ScanData :=
  { conflictCheck := fun _ _ => false
    thresholdCheck := fun _ _ => false
    frontWallCheck := fun _ _ => 0
    noiseCheck := fun _ => false
    leftWallCheck := fun _ _ => 0
    openPlaceCheck := fun _ _ _ => s }

/-- Iterate the scan-callback flag update over a sequence of openness
scores, returning the flag value after each scan. -/
def open_place_trace (cfg : Config) (outdoor : Bool) : Bool → List ℚ → List Bool
  | _, [] => []
  | b, s :: rest =>
    let b' := scan_callback_open_place cfg (constScan s) outdoor b
    b' :: open_place_trace cfg outdoor b' rest

/-- First index of the greatest element of a list, mirroring
`std::max_element` (which keeps the earliest of equal maxima): the running
best is replaced only by a strictly greater element. -/
def maxElemIdxFrom (bi : Nat) (bv : ℚ) (i : Nat) : List ℚ → Nat
  | [] => bi
  | x :: xs => if bv < x then maxElemIdxFrom i x (i + 1) xs
               else maxElemIdxFrom bi bv (i + 1) xs

/-- Index of `std::max_element` over a non-empty list (0 on the empty list,
an impossible case in `wallTracking` where the list has four elements). -/
def maxElemIdx : List ℚ → Nat
  | [] => 0
  | x :: xs => maxElemIdxFrom 0 x 1 xs

/-- The observable outcome of one `WallTracking::wallTracking` cycle: the
command published through `pub_cmd_vel`, the detection label published at
the end of the cycle, the duration of the `rclcpp::sleep_for` dwell in
milliseconds (2000 in the emergency branch, 0 elsewhere), and the value of
the integral accumulator `ei_` after the cycle. -/
structure WTOut where
  cmd : Command
  label : String
  dwell_ms : Nat
  ei : ℚ
deriving DecidableEq

/-- `WallTracking::wallTracking` (lines 153-229): one decision cycle, as a
function of the configuration, the current `ScanData`, the `outdoor_` flag
and the integral accumulator `ei_`. -/
def wallTracking (cfg : Config) (sd : ScanData) (outdoor : Bool) (ei : ℚ) : WTOut :=
  let gap_th := cfg.distance_from_wall * 2
  let gap_start := sd.conflictCheck cfg.start_deg_lateral gap_th
  let gap_end := sd.conflictCheck 90 gap_th
  let front_left_wall := sd.thresholdCheck cfg.flw_deg 1.87
  let front_wall_check := sd.frontWallCheck cfg.fwc_deg cfg.distance_to_stop
  match outdoor with
  | false =>
    if front_wall_check ≥ cfg.stop_ray_th then
      { cmd := pub_cmd_vel cfg (cfg.max_linear_vel / 4) (DEG2RAD cfg (-45))
        label := "Indoor", dwell_ms := 2000, ei := ei }
    else if (gap_start || gap_end) && !front_left_wall && sd.noiseCheck cfg.flw_deg then
      { cmd := pub_cmd_vel cfg cfg.max_linear_vel 0
        label := "Indoor", dwell_ms := 0, ei := ei }
    else
      let lateral_mean := sd.leftWallCheck cfg.start_deg_lateral cfg.end_deg_lateral
      let r := lateral_pid_control cfg ei lateral_mean
      { cmd := pub_cmd_vel cfg cfg.max_linear_vel r.2
        label := "Indoor", dwell_ms := 0, ei := r.1 }
  | true =>
    if front_wall_check ≥ cfg.stop_ray_th then
      { cmd := pub_cmd_vel cfg (cfg.max_linear_vel / 4) (DEG2RAD cfg (-45))
        label := "Indoor", dwell_ms := 2000, ei := ei }
    else
      let e0 := sd.openPlaceCheck (-15) 15 cfg.open_place_distance
      let e1 := sd.openPlaceCheck 15 45 cfg.open_place_distance
      let e2 := sd.openPlaceCheck (-45) (-15) cfg.open_place_distance
      let evals : List ℚ :=
        [if e0 < 0.7 then -1 else e0,
         if e1 < 0.7 then -1 else e1,
         if e2 < 0.7 then -1 else e2,
         0]
      match maxElemIdx evals with
      | 0 => { cmd := pub_cmd_vel cfg cfg.max_linear_vel 0
               label := "Front", dwell_ms := 0, ei := ei }
      | 1 => { cmd := pub_cmd_vel cfg cfg.max_linear_vel cfg.max_angular_vel
               label := "Left", dwell_ms := 0, ei := ei }
      | 2 => { cmd := pub_cmd_vel cfg cfg.max_linear_vel cfg.min_angular_vel
               label := "Right", dwell_ms := 0, ei := ei }
      | _ =>
        if (gap_start || gap_end) && !front_left_wall && sd.noiseCheck cfg.flw_deg then
          { cmd := pub_cmd_vel cfg cfg.max_linear_vel 0
            label := "Not open place", dwell_ms := 0, ei := ei }
        else
          let lateral_mean := sd.leftWallCheck cfg.start_deg_lateral cfg.end_deg_lateral
          let r := lateral_pid_control cfg ei lateral_mean
          { cmd := pub_cmd_vel cfg cfg.max_linear_vel r.2
            label := "Not open place", dwell_ms := 0, ei := r.1 }

/-- The member variables set by `WallTracking::init_variable`
(lines 96-106), which runs once in the node constructor. -/
structure InitVars where
  ei : ℚ
  open_place : Bool
  outdoor : Bool
  init_scan_data : Bool
deriving DecidableEq

/-- `WallTracking::init_variable` (lines 96-106): zero the integral
accumulator and clear the flags (the derived angles `fwc_deg_`/`flw_deg_`
are carried in `Config`, see there). -/
def init_variable : InitVars :=
  { ei := 0, open_place := false, outdoor := false, init_scan_data := false }

/-- The shared state observed by one iteration of the `execute` loop: the
result of `goal_handle->is_canceling()`, and snapshots of the member
variables `open_place_` and `outdoor_` and of the current scan
(all mutated concurrently by the subscription callbacks). -/
structure IterIn where
  canceling : Bool
  open_place : Bool
  outdoor : Bool
  sd : ScanData

/-- Terminal report of a `ControlTask`: `goal_handle->canceled(result)` or
`goal_handle->succeed(result)` carrying `result->get`, or no terminal call
at all (the fall-through path where the post-loop `rclcpp::ok()` check
fails). -/
inductive TaskOutcome where
  | canceled : Bool → TaskOutcome
  | succeeded : Bool → TaskOutcome
  | noResult : TaskOutcome
deriving DecidableEq

/-- Observable behaviour of one `WallTracking::execute` run: the terminal
outcome, the `feedback->end` values published (in order), the commands
published through `pub_cmd_vel` (in order), and the final value of the
accumulator `ei_`. -/
structure ExecOut where
  outcome : TaskOutcome
  feedbacks : List Bool
  cmds : List Command
  ei : ℚ

/-- The `while (rclcpp::ok())` loop of `WallTracking::execute`
(lines 275-291).  `env` lists the iterations for which the loop-head
`rclcpp::ok()` call returns `true` (the loop exits when `env` is
exhausted); `okAfter` is the value of the second `rclcpp::ok()` check after
the loop.  Each iteration first checks cancellation — returning
`canceled false` and publishing the stop command — and otherwise publishes
`open_place_` as feedback and runs one `wallTracking` cycle. -/
def executeLoop (cfg : Config) (okAfter : Bool) : ℚ → List IterIn → ExecOut
  | ei, [] =>
    { outcome := if okAfter then .succeeded true else .noResult
      feedbacks := [], cmds := [], ei := ei }
  | ei, it :: rest =>
    if it.canceling then
      { outcome := .canceled false, feedbacks := []
        cmds := [pub_cmd_vel cfg 0 0], ei := ei }
    else
      let w := wallTracking cfg it.sd it.outdoor ei
      let r := executeLoop cfg okAfter w.ei rest
      { r with feedbacks := it.open_place :: r.feedbacks, cmds := w.cmd :: r.cmds }

/-- `WallTracking::execute` (lines 267-292): notes `feedback->end = false`
and runs the loop from the accumulator value `ei0` the member `ei_`
happens to hold when the goal is accepted (`execute` itself never writes
`ei_`; only `init_variable`, run at construction, zeroes it). -/
def execute (cfg : Config) (ei0 : ℚ) (env : List IterIn) (okAfter : Bool) : ExecOut :=
  executeLoop cfg okAfter ei0 env

/-- A sample configuration used to evaluate the model on concrete inputs. -/
def cfg0 : Config :=
  { max_linear_vel := 1
    max_angular_vel := 1
    min_angular_vel := -1
    distance_from_wall := 1
    distance_to_stop := 1
    sampling_rate := 1
    kp := 1
    ki := 0
    kd := 0
    start_deg_lateral := 20
    end_deg_lateral := 40
    stop_ray_th := 1/2
    open_place_distance := 5
    fwc_deg := -4
    flw_deg := 15
    pi := 314159/100000 }

/-- A `ScanData` fixture with prescribed answers: `gs`/`ge` for the two
`conflictCheck` calls (keyed on the 90° argument), `flw` for
`thresholdCheck`, `nz` for `noiseCheck`, `fw` for `frontWallCheck`, `lm`
for `leftWallCheck`, and `f`/`l`/`r` for `openPlaceCheck` on the sectors
starting at −15°, 15° and −45°. -/
def mkScan (gs ge flw nz : Bool) (fw lm f l r : ℚ) : ScanData :=
  { conflictCheck := fun d _ => if d = 90 then ge else gs
    thresholdCheck := fun _ _ => flw
    noiseCheck := fun _ => nz
    frontWallCheck := fun _ _ => fw
    leftWallCheck := fun _ _ => lm
    openPlaceCheck := fun a _ _ =>
      if a = -15 then f else if a = 15 then l else if a = -45 then r else 0 }

/-- Configuration for exercising the command clamp: angular bounds
`[-2, 1]`, linear bound `1`. -/
def cfgC9 : Config :=
  { cfg0 with min_angular_vel := -2, max_angular_vel := 1 }

/-- Configuration isolating the integral term of the PID controller
(`kp = kd = 0`, `ki = 1`) with angular bounds wide enough that the clamp
never bites on the values exercised. -/
def cfgC1 : Config :=
  { cfg0 with kp := 0, ki := 1, max_angular_vel := 10, min_angular_vel := -10 }

/-- A loop iteration with no cancellation pending in which the decision
cycle takes the PID branch (no front wall, no gap) and measures a lateral
mean of 2. -/
def itP : IterIn :=
  { canceling := false, open_place := false, outdoor := false
    sd := mkScan false false false false 0 2 0 0 0 }

/-- A loop iteration with no cancellation pending and the arrived flag
down. -/
def itF : IterIn :=
  { canceling := false, open_place := false, outdoor := false
    sd := constScan 0 }

/-- A loop iteration with a cancellation request pending. -/
def itC : IterIn :=
  { canceling := true, open_place := true, outdoor := true
    sd := constScan 0 }

/-- Claim C8: the lateral PID correction computes `e = measured − target`,
accumulates `ei += e·T`, sets `ed = e / T`, and returns
`kp·e + ki·ei + kd·ed` with no clamping; with `kp = 1`, `ki = kd = 0`,
`T = 1`, target `1.0` and input `1.5` the output is `0.5`. -/
theorem claim_C8 :
    (∀ (cfg : Config) (ei input : ℚ),
      lateral_pid_control cfg ei input =
        (ei + (input - cfg.distance_from_wall) * cfg.sampling_rate,
         cfg.kp * (input - cfg.distance_from_wall)
           + cfg.ki * (ei + (input - cfg.distance_from_wall) * cfg.sampling_rate)
           + cfg.kd * ((input - cfg.distance_from_wall) / cfg.sampling_rate))) ∧
    lateral_pid_control cfg0 0 1.5 = (0.5, 0.5) := by
  constructor
  · intro cfg ei input
    simp only [lateral_pid_control, Prod.mk.injEq]
    constructor
    · ring_nf
    · ring
  · norm_num [lateral_pid_control, cfg0]

/-- Claim C9: the published linear velocity is `min(requested,
max_linear_vel)` (upper clamp only), and, when
`min_angular_vel ≤ max_angular_vel`, the published angular velocity is the
requested one clamped to `[min_angular_vel, max_angular_vel]`. -/
theorem claim_C9 (cfg : Config) (l a : ℚ)
    (h : cfg.min_angular_vel ≤ cfg.max_angular_vel) :
    (pub_cmd_vel cfg l a).1 = min l cfg.max_linear_vel ∧
    cfg.min_angular_vel ≤ (pub_cmd_vel cfg l a).2 ∧
    (pub_cmd_vel cfg l a).2 ≤ cfg.max_angular_vel ∧
    (cfg.min_angular_vel ≤ a → a ≤ cfg.max_angular_vel →
      (pub_cmd_vel cfg l a).2 = a) ∧
    (a ≤ cfg.min_angular_vel → (pub_cmd_vel cfg l a).2 = cfg.min_angular_vel) ∧
    (cfg.max_angular_vel ≤ a → (pub_cmd_vel cfg l a).2 = cfg.max_angular_vel) := by
  refine ⟨rfl, le_max_right _ _, max_le (min_le_right _ _) h, ?_, ?_, ?_⟩
  · intro h1 h2
    simp only [pub_cmd_vel]
    rw [min_eq_left h2, max_eq_left h1]
  · intro h1
    simp only [pub_cmd_vel]
    rw [min_eq_left (h1.trans h), max_eq_right h1]
  · intro h1
    simp only [pub_cmd_vel]
    rw [min_eq_right h1, max_eq_left h]

/-- Witness for claim C9: with bounds `[-2, 1]` on angular and `1` on
linear velocity, requesting `(10, -5)` publishes `(1, -2)`. -/
theorem claim_C9_witness : pub_cmd_vel cfgC9 10 (-5) = (1, -2) := by
  have h := claim_C9 cfgC9 10 (-5) (by norm_num [cfgC9, cfg0])
  have h1 := h.1
  have h2 := h.2.2.2.2.1 (by norm_num [cfgC9, cfg0])
  have hmin : min (10 : ℚ) cfgC9.max_linear_vel = 1 := by norm_num [cfgC9, cfg0]
  have hlo : cfgC9.min_angular_vel = -2 := by norm_num [cfgC9, cfg0]
  rw [hmin] at h1
  rw [hlo] at h2
  exact Prod.ext h1 h2

/-- Claim C3: the open-place flag update is mode-gated hysteresis — always
false in indoor mode; in outdoor mode it rises exactly when the
full-frontal openness score reaches 0.7 and stays up exactly while the
score stays at least 0.4 — and the score sequence
`[0.5, 0.75, 0.5, 0.35, 0.5]` from a lowered flag yields
`[false, true, true, false, false]`. -/
theorem claim_C3 :
    (∀ (cfg : Config) (sd : ScanData) (b : Bool),
        scan_callback_open_place cfg sd false b = false) ∧
    (∀ (cfg : Config) (sd : ScanData),
        (scan_callback_open_place cfg sd true false = true ↔
          sd.openPlaceCheck (-90) 90 cfg.open_place_distance ≥ 0.7)) ∧
    (∀ (cfg : Config) (sd : ScanData),
        (scan_callback_open_place cfg sd true true = true ↔
          sd.openPlaceCheck (-90) 90 cfg.open_place_distance ≥ 0.4)) ∧
    open_place_trace cfg0 true false [0.5, 0.75, 0.5, 0.35, 0.5]
      = [false, true, true, false, false] := by
  refine ⟨fun cfg sd b => rfl, fun cfg sd => ?_, fun cfg sd => ?_, ?_⟩
  · simp [scan_callback_open_place]
  · simp [scan_callback_open_place]
  · norm_num [open_place_trace, scan_callback_open_place, constScan, cfg0]

/-- Claim C10: in an outdoor-mode cycle in which the emergency front-wall
branch fires, the published detection label is the initial value
`"Indoor"` (the emergency branch never assigns it). -/
theorem claim_C10 (cfg : Config) (sd : ScanData) (ei : ℚ)
    (hfw : sd.frontWallCheck cfg.fwc_deg cfg.distance_to_stop ≥ cfg.stop_ray_th) :
    (wallTracking cfg sd true ei).label = "Indoor" := by
  simp only [wallTracking]
  rw [if_pos hfw]

/-- Witness for claim C10: a scan with full frontal-wall fraction in the
sample configuration (threshold 1/2) yields the label `"Indoor"` outdoors. -/
theorem claim_C10_witness :
    (wallTracking cfg0 (mkScan false false false false 1 0 0 0 0) true 0).label
      = "Indoor" :=
  claim_C10 cfg0 (mkScan false false false false 1 0 0 0 0) 0
    (by norm_num [mkScan, cfg0])

/-- Claim C5: whenever the front-wall fraction reaches `stop_ray_th`, in
either mode the cycle publishes exactly
`(max_linear_vel / 4, DEG2RAD(-45))` (provided the configured bounds admit
that command), dwells 2000 ms, and runs no other branch — in particular
the accumulator is untouched. -/
theorem claim_C5 (cfg : Config) (sd : ScanData) (outdoor : Bool) (ei : ℚ)
    (hfw : sd.frontWallCheck cfg.fwc_deg cfg.distance_to_stop ≥ cfg.stop_ray_th)
    (hlin : 0 ≤ cfg.max_linear_vel)
    (hlo : cfg.min_angular_vel ≤ DEG2RAD cfg (-45))
    (hhi : DEG2RAD cfg (-45) ≤ cfg.max_angular_vel) :
    wallTracking cfg sd outdoor ei =
      { cmd := (cfg.max_linear_vel / 4, DEG2RAD cfg (-45))
        label := "Indoor", dwell_ms := 2000, ei := ei } := by
  have hcmd : pub_cmd_vel cfg (cfg.max_linear_vel / 4) (DEG2RAD cfg (-45))
      = (cfg.max_linear_vel / 4, DEG2RAD cfg (-45)) := by
    simp only [pub_cmd_vel]
    rw [min_eq_left (by linarith), min_eq_left hhi, max_eq_left hlo]
  cases outdoor
  · simp only [wallTracking]
    rw [if_pos hfw, hcmd]
  · simp only [wallTracking]
    rw [if_pos hfw, hcmd]

/-- Witness for claim C5: with the sample configuration (for which
`DEG2RAD(-45) = -45·π/180` lies within the angular bounds) and a scan whose
front-wall fraction is 1, the outdoor cycle emits the emergency command. -/
theorem claim_C5_witness :
    wallTracking cfg0 (mkScan false false false false 1 0 0 0 0) true 0 =
      { cmd := (cfg0.max_linear_vel / 4, DEG2RAD cfg0 (-45))
        label := "Indoor", dwell_ms := 2000, ei := 0 } :=
  claim_C5 cfg0 (mkScan false false false false 1 0 0 0 0) true 0
    (by norm_num [mkScan, cfg0]) (by norm_num [cfg0])
    (by norm_num [DEG2RAD, cfg0]) (by norm_num [DEG2RAD, cfg0])

/-- Claim C7: in an indoor cycle with no front wall, a gap at the sector
start or at 90°, no front-left wall, and a corroborated (non-noise) gap,
the published command is `(max_linear_vel, 0)` (given angular bounds that
admit 0) and the integral accumulator is untouched — the PID controller is
not invoked. -/
theorem claim_C7 (cfg : Config) (sd : ScanData) (ei : ℚ)
    (hfw : sd.frontWallCheck cfg.fwc_deg cfg.distance_to_stop < cfg.stop_ray_th)
    (hgap : sd.conflictCheck cfg.start_deg_lateral (cfg.distance_from_wall * 2) = true ∨
            sd.conflictCheck 90 (cfg.distance_from_wall * 2) = true)
    (hflw : sd.thresholdCheck cfg.flw_deg 1.87 = false)
    (hnz : sd.noiseCheck cfg.flw_deg = true)
    (hlo : cfg.min_angular_vel ≤ 0) (hhi : 0 ≤ cfg.max_angular_vel) :
    (wallTracking cfg sd false ei).cmd = (cfg.max_linear_vel, 0) ∧
    (wallTracking cfg sd false ei).ei = ei := by
  have hcmd : pub_cmd_vel cfg cfg.max_linear_vel 0 = (cfg.max_linear_vel, 0) := by
    simp only [pub_cmd_vel]
    rw [min_self, min_eq_left hhi, max_eq_left hlo]
  have hg : (sd.conflictCheck cfg.start_deg_lateral (cfg.distance_from_wall * 2) ||
      sd.conflictCheck 90 (cfg.distance_from_wall * 2)) = true := by
    rcases hgap with h | h <;> simp [h]
  simp only [wallTracking]
  rw [if_neg (not_le.mpr hfw)]
  rw [hg, hflw, hnz]
  simp [hcmd]

/-- Witness for claim C7: sample configuration, gap at the sector start,
no front-left wall, noise check passing, no front wall. -/
theorem claim_C7_witness :
    (wallTracking cfg0 (mkScan true false false true 0 0 0 0 0) false 3).cmd
        = (cfg0.max_linear_vel, 0) ∧
    (wallTracking cfg0 (mkScan true false false true 0 0 0 0 0) false 3).ei = 3 :=
  claim_C7 cfg0 (mkScan true false false true 0 0 0 0 0) 3
    (by norm_num [mkScan, cfg0])
    (Or.inl (by norm_num [mkScan, cfg0]))
    (by norm_num [mkScan]) (by norm_num [mkScan])
    (by norm_num [cfg0]) (by norm_num [cfg0])

/-- `std::max_element` over `[a, b, c, d]` stays at index 0 when no later
element strictly exceeds `a`. -/
theorem maxElemIdx_cons_zero (a b c d : ℚ) (h1 : b ≤ a) (h2 : c ≤ a) (h3 : d ≤ a) :
    maxElemIdx [a, b, c, d] = 0 := by
  simp only [maxElemIdx, maxElemIdxFrom]
  rw [if_neg (not_lt.mpr h1), if_neg (not_lt.mpr h2), if_neg (not_lt.mpr h3)]

/-- `std::max_element` over `[a, b, c, d]` lands on index 1 when `b`
strictly exceeds `a` and no later element strictly exceeds `b`. -/
theorem maxElemIdx_cons_one (a b c d : ℚ) (h1 : a < b) (h2 : c ≤ b) (h3 : d ≤ b) :
    maxElemIdx [a, b, c, d] = 1 := by
  simp only [maxElemIdx, maxElemIdxFrom]
  rw [if_pos h1, if_neg (not_lt.mpr h2), if_neg (not_lt.mpr h3)]

/-- `std::max_element` over `[a, b, c, d]` lands on index 2 when `c`
strictly exceeds both `a` and `b` and `d` does not exceed `c`. -/
theorem maxElemIdx_cons_two (a b c d : ℚ) (h1 : a < c) (h2 : b < c) (h3 : d ≤ c) :
    maxElemIdx [a, b, c, d] = 2 := by
  simp only [maxElemIdx, maxElemIdxFrom]
  by_cases hab : a < b
  · rw [if_pos hab, if_pos h2, if_neg (not_lt.mpr h3)]
  · rw [if_neg hab, if_pos h1, if_neg (not_lt.mpr h3)]

/-- `std::max_element` over `[a, b, c, d]` lands on index 3 when `d`
strictly exceeds `a`, `b` and `c`. -/
theorem maxElemIdx_cons_three (a b c d : ℚ) (h1 : a < d) (h2 : b < d) (h3 : c < d) :
    maxElemIdx [a, b, c, d] = 3 := by
  simp only [maxElemIdx, maxElemIdxFrom]
  by_cases hab : a < b
  · rw [if_pos hab]
    by_cases hbc : b < c
    · rw [if_pos hbc, if_pos h3]
    · rw [if_neg hbc, if_pos h2]
  · rw [if_neg hab]
    by_cases hac : a < c
    · rw [if_pos hac, if_pos h3]
    · rw [if_neg hac, if_pos h1]

/-- Claim C6: the outdoor non-emergency cycle scores the three fixed
sectors, discards scores below 0.7 (as −1) and picks the first highest
surviving one: front → `(max_linear_vel, 0)` with label `"Front"`; left →
`(max_linear_vel, max_angular_vel)` with label `"Left"`; right →
`(max_linear_vel, min_angular_vel)` with label `"Right"`; when no sector
reaches 0.7, the label is `"Not open place"` and the cycle behaves as the
indoor gap-skip-or-PID fallback. -/
theorem claim_C6 (cfg : Config) (sd : ScanData) (ei : ℚ) (f l r : ℚ)
    (hf : f = sd.openPlaceCheck (-15) 15 cfg.open_place_distance)
    (hl : l = sd.openPlaceCheck 15 45 cfg.open_place_distance)
    (hr : r = sd.openPlaceCheck (-45) (-15) cfg.open_place_distance)
    (hfw : sd.frontWallCheck cfg.fwc_deg cfg.distance_to_stop < cfg.stop_ray_th)
    (hlo : cfg.min_angular_vel ≤ 0) (hhi : 0 ≤ cfg.max_angular_vel) :
    (0.7 ≤ f → l ≤ f → r ≤ f →
      wallTracking cfg sd true ei =
        { cmd := (cfg.max_linear_vel, 0), label := "Front"
          dwell_ms := 0, ei := ei }) ∧
    (0.7 ≤ l → f < l → r ≤ l →
      wallTracking cfg sd true ei =
        { cmd := (cfg.max_linear_vel, cfg.max_angular_vel), label := "Left"
          dwell_ms := 0, ei := ei }) ∧
    (0.7 ≤ r → f < r → l < r →
      wallTracking cfg sd true ei =
        { cmd := (cfg.max_linear_vel, cfg.min_angular_vel), label := "Right"
          dwell_ms := 0, ei := ei }) ∧
    (f < 0.7 → l < 0.7 → r < 0.7 →
      (wallTracking cfg sd true ei).label = "Not open place" ∧
      (wallTracking cfg sd true ei).cmd = (wallTracking cfg sd false ei).cmd ∧
      (wallTracking cfg sd true ei).ei = (wallTracking cfg sd false ei).ei ∧
      (wallTracking cfg sd true ei).dwell_ms = 0) := by
  subst hf hl hr
  set f := sd.openPlaceCheck (-15) 15 cfg.open_place_distance with hfd
  set l := sd.openPlaceCheck 15 45 cfg.open_place_distance with hld
  set r := sd.openPlaceCheck (-45) (-15) cfg.open_place_distance with hrd
  have hmin : cfg.min_angular_vel ≤ cfg.max_angular_vel := hlo.trans hhi
  have hz : pub_cmd_vel cfg cfg.max_linear_vel 0 = (cfg.max_linear_vel, 0) := by
    simp only [pub_cmd_vel]
    rw [min_self, min_eq_left hhi, max_eq_left hlo]
  have hmx : pub_cmd_vel cfg cfg.max_linear_vel cfg.max_angular_vel
      = (cfg.max_linear_vel, cfg.max_angular_vel) := by
    simp only [pub_cmd_vel]
    rw [min_self, min_self, max_eq_left hmin]
  have hmn : pub_cmd_vel cfg cfg.max_linear_vel cfg.min_angular_vel
      = (cfg.max_linear_vel, cfg.min_angular_vel) := by
    simp only [pub_cmd_vel]
    rw [min_self, min_eq_left hmin, max_self]
  refine ⟨?_, ?_, ?_, ?_⟩
  · intro h07 hlf hrf
    simp only [wallTracking]
    rw [if_neg (not_le.mpr hfw)]
    rw [if_neg (not_lt.mpr h07)]
    rw [maxElemIdx_cons_zero f _ _ 0
      (by split_ifs with h <;> linarith)
      (by split_ifs with h <;> linarith)
      (by linarith)]
    rw [hz]
  · intro h07 hfl hrl
    simp only [wallTracking]
    rw [if_neg (not_le.mpr hfw)]
    rw [if_neg (not_lt.mpr h07)]
    rw [maxElemIdx_cons_one _ l _ 0
      (by split_ifs with h <;> linarith)
      (by split_ifs with h <;> linarith)
      (by linarith)]
    rw [hmx]
  · intro h07 hfr hlr
    simp only [wallTracking]
    rw [if_neg (not_le.mpr hfw)]
    rw [if_neg (not_lt.mpr h07)]
    rw [maxElemIdx_cons_two _ _ r 0
      (by split_ifs with h <;> linarith)
      (by split_ifs with h <;> linarith)
      (by linarith)]
    rw [hmn]
  · intro hfo hlo2 hro
    have hun : (wallTracking cfg sd true ei) =
        { cmd := (wallTracking cfg sd false ei).cmd
          label := "Not open place"
          dwell_ms := (wallTracking cfg sd false ei).dwell_ms
          ei := (wallTracking cfg sd false ei).ei } := by
      simp only [wallTracking]
      rw [if_neg (not_le.mpr hfw), if_neg (not_le.mpr hfw)]
      rw [if_pos hfo, if_pos hlo2, if_pos hro]
      rw [maxElemIdx_cons_three (-1) (-1) (-1) 0 (by norm_num) (by norm_num)
        (by norm_num)]
      by_cases hg : ((sd.conflictCheck cfg.start_deg_lateral
          (cfg.distance_from_wall * 2) ||
          sd.conflictCheck 90 (cfg.distance_from_wall * 2)) &&
          !sd.thresholdCheck cfg.flw_deg 1.87 &&
          sd.noiseCheck cfg.flw_deg) = true
      · rw [if_pos hg, if_pos hg]
      · rw [if_neg hg, if_neg hg]
    rw [hun]
    have hdw : (wallTracking cfg sd false ei).dwell_ms = 0 := by
      simp only [wallTracking]
      rw [if_neg (not_le.mpr hfw)]
      by_cases hg : ((sd.conflictCheck cfg.start_deg_lateral
          (cfg.distance_from_wall * 2) ||
          sd.conflictCheck 90 (cfg.distance_from_wall * 2)) &&
          !sd.thresholdCheck cfg.flw_deg 1.87 &&
          sd.noiseCheck cfg.flw_deg) = true
      · rw [if_pos hg]
      · rw [if_neg hg]
    exact ⟨rfl, rfl, rfl, hdw⟩

/-- Witness for claim C6: outdoors with sector scores `f = 0.5`,
`l = 0.8`, `r = 0.5`, the left sector is selected. -/
theorem claim_C6_witness :
    wallTracking cfg0 (mkScan false false false false 0 0 0.5 0.8 0.5) true 2 =
      { cmd := (cfg0.max_linear_vel, cfg0.max_angular_vel), label := "Left"
        dwell_ms := 0, ei := 2 } :=
  (claim_C6 cfg0 (mkScan false false false false 0 0 0.5 0.8 0.5) 2 0.5 0.8 0.5
    (by norm_num [mkScan]) (by norm_num [mkScan]) (by norm_num [mkScan])
    (by norm_num [mkScan, cfg0]) (by norm_num [cfg0]) (by norm_num [cfg0])).2.1
    (by norm_num) (by norm_num) (by norm_num)

/-- Claim C4: a loop iteration with a cancellation request pending reports
the `Canceled` outcome, publishes the stop command `(0, 0)` (given bounds
that admit it) and nothing else — no feedback, no decision cycle, the
accumulator untouched — regardless of the arrived flag and of any further
scheduled iterations. -/
theorem claim_C4 (cfg : Config) (ei : ℚ) (it : IterIn) (rest : List IterIn)
    (okAfter : Bool) (hc : it.canceling = true)
    (hlin : 0 ≤ cfg.max_linear_vel)
    (hlo : cfg.min_angular_vel ≤ 0) (hhi : 0 ≤ cfg.max_angular_vel) :
    execute cfg ei (it :: rest) okAfter =
      { outcome := TaskOutcome.canceled false, feedbacks := []
        cmds := [(0, 0)], ei := ei } := by
  have hstop : pub_cmd_vel cfg 0 0 = (0, 0) := by
    simp only [pub_cmd_vel]
    rw [min_eq_left hlin, min_eq_left hhi, max_eq_left hlo]
  simp only [execute, executeLoop]
  rw [hc]
  simp [hstop]

/-- Witness for claim C4: a canceling iteration (arrived flag up, more
iterations scheduled) stops with `(0, 0)` and outcome `Canceled`, leaving
the accumulator at 7. -/
theorem claim_C4_witness :
    execute cfg0 7 [itC, itF] true =
      { outcome := TaskOutcome.canceled false, feedbacks := []
        cmds := [(0, 0)], ei := 7 } :=
  claim_C4 cfg0 7 itC [itF] true rfl (by norm_num [cfg0]) (by norm_num [cfg0])
    (by norm_num [cfg0])

/-- Claim C2 (amended): when the loop of `execute` falls through (no
iteration had a cancellation pending), the outcome is governed by the
second `rclcpp::ok()` check: `Succeeded` carrying the constant flag `true`
when it passes, and no terminal report at all when it fails — the final
arrived state is not consulted. -/
theorem claim_C2 (cfg : Config) (ei : ℚ) (env : List IterIn) (okAfter : Bool)
    (hnc : ∀ it ∈ env, it.canceling = false) :
    (execute cfg ei env okAfter).outcome =
      if okAfter then TaskOutcome.succeeded true else TaskOutcome.noResult := by
  induction env generalizing ei with
  | nil => rfl
  | cons it rest ih =>
    have h1 : it.canceling = false := hnc it (by simp)
    have h2 : ∀ x ∈ rest, x.canceling = false := fun x hx => hnc x (by simp [hx])
    simp only [execute, executeLoop]
    rw [h1]
    simpa only [execute, Bool.false_eq_true, if_false] using ih _ h2

/-- Witness for claim C2 (amended): a fall-through after one non-canceling
iteration with the post-loop check failing reports no terminal outcome. -/
theorem claim_C2_witness :
    (execute cfg0 0 [itF] false).outcome = TaskOutcome.noResult := by
  have h := claim_C2 cfg0 0 [itF] false
    (by intro it hit; simp only [List.mem_singleton] at hit; subst hit; rfl)
  simpa using h

/-- Counterexample to claim C2 as stated: falling through with the arrived
flag down and the post-loop check passing reports `Succeeded` carrying
`true` — not the final arrived state `false`; and falling through with the
post-loop check failing reports nothing at all, not `Succeeded`. -/
theorem claim_C2_counterexample :
    (execute cfg0 0 [itF] true).outcome = TaskOutcome.succeeded true ∧
    (execute cfg0 0 [itF] true).feedbacks = [false] ∧
    TaskOutcome.succeeded true ≠ TaskOutcome.succeeded false ∧
    (execute cfg0 0 [] false).outcome = TaskOutcome.noResult ∧
    (∀ b : Bool, TaskOutcome.noResult ≠ TaskOutcome.succeeded b) := by
  refine ⟨?_, ?_, by simp, rfl, by simp⟩
  · simp [execute, executeLoop, itF]
  · simp [execute, executeLoop, itF]

/-- Claim C1 (amended): the integral accumulator is zeroed only by
`init_variable`, which runs once at node construction; `execute` never
resets it, so a task execution starts its first decision cycle (and hence
its first PID correction) from the accumulator value the previous run left
behind. -/
theorem claim_C1 :
    init_variable.ei = 0 ∧
    (∀ (cfg : Config) (ei0 : ℚ) (okAfter : Bool),
      (execute cfg ei0 [] okAfter).ei = ei0) ∧
    (∀ (cfg : Config) (ei0 : ℚ) (it : IterIn) (rest : List IterIn)
        (okAfter : Bool), it.canceling = false →
      (execute cfg ei0 (it :: rest) okAfter).cmds.head? =
        some (wallTracking cfg it.sd it.outdoor ei0).cmd) := by
  refine ⟨rfl, fun cfg ei0 okAfter => rfl, ?_⟩
  intro cfg ei0 it rest okAfter hc
  simp only [execute, executeLoop]
  rw [hc]
  simp

/-- Witness for claim C1 (amended): an execution entered with accumulator
value 5 runs its first decision cycle from 5. -/
theorem claim_C1_witness :
    (execute cfg0 5 [itF] true).cmds.head? =
      some (wallTracking cfg0 itF.sd itF.outdoor 5).cmd :=
  claim_C1.2.2 cfg0 5 itF [] true rfl

/-- Counterexample to claim C1 as stated: with `ki = 1` and all other
gains zero, a first execution leaves the accumulator at 1, and a second
execution run from that value publishes angular velocity 2 in its first
PID cycle, whereas the same execution from a freshly zeroed accumulator
publishes 1 — the integral error of the first run carries over. -/
theorem claim_C1_counterexample :
    (execute cfgC1 0 [itP] true).ei = 1 ∧
    (execute cfgC1 0 [itP] true).cmds = [(1, 1)] ∧
    (execute cfgC1 (execute cfgC1 0 [itP] true).ei [itP] true).cmds = [(1, 2)] ∧
    ((1 : ℚ), (2 : ℚ)) ≠ ((1 : ℚ), (1 : ℚ)) := by
  refine ⟨?_, ?_, ?_, by norm_num⟩
  · norm_num [execute, executeLoop, wallTracking, pub_cmd_vel,
      lateral_pid_control, mkScan, itP, cfgC1, cfg0]
  · norm_num [execute, executeLoop, wallTracking, pub_cmd_vel,
      lateral_pid_control, mkScan, itP, cfgC1, cfg0]
  · norm_num [execute, executeLoop, wallTracking, pub_cmd_vel,
      lateral_pid_control, mkScan, itP, cfgC1, cfg0]

end WallTracking
